import Mathlib

/-!
Verification of the coco-frontend client against its specification.

The TypeScript sources are shallowly embedded: JS strings are `List Char`,
JS numbers are exact decimals (`JNum`, mantissa times a power of ten), JSON
values are the inductive `Json`, thrown exceptions become `Except`/`Option`
results, and browser state (localStorage, the current time, fetch outcomes)
is passed explicitly.  Each definition follows the corresponding function in
`src/` line by line; theorems at the end settle the specification claims.
-/

namespace Coco

/-- JS strings are modelled as lists of characters. -/
abbrev JStr := List Char

/-- Model of `String.prototype.split` with a single-character separator, as in
`token.split('.')` (`src/utils/jwt.ts`).  `"".split(c)` gives `[""]`. -/
def jsSplit (sep : Char) : JStr → List JStr
  | [] => [[]]
  | c :: cs =>
    let r := jsSplit sep cs
    if c = sep then [] :: r
    else
      match r with
      | y :: ys => (c :: y) :: ys
      | [] => [[c]]

/-- Model of `String.prototype.endsWith('/')`: the last character is `'/'`. -/
def jsEndsWithSlash (p : JStr) : Bool := p.getLast? == some '/'

/-- Whitespace for the model of `String.prototype.trim` (space, tab, newline,
carriage return, form feed). -/
def jsIsSpace (c : Char) : Bool :=
  c = ' ' || c = '\t' || c = '\n' || c = '\r' || c = '\x0c'

/-- Model of `String.prototype.trim`. -/
def jsTrim (s : JStr) : JStr :=
  ((s.dropWhile jsIsSpace).reverse.dropWhile jsIsSpace).reverse

/-- Model of `String.prototype.startsWith` restricted to what `jsIncludes`
needs: does `l` start with `pat`. -/
def jsStartsWith : JStr → JStr → Bool
  | [], _ => true
  | _ :: _, [] => false
  | p :: ps, c :: cs => p == c && jsStartsWith ps cs

/-- Model of `String.prototype.includes`: some suffix of `l` starts with
`pat`. -/
def jsIncludes (pat : JStr) : JStr → Bool
  | [] => jsStartsWith pat []
  | c :: cs => jsStartsWith pat (c :: cs) || jsIncludes pat cs

/-- An exact decimal number `mantissa * 10 ^ exponent`, modelling the JS
numbers that appear in the frontend (JSON numbers, form rates, ids).  Kept
unnormalised so that all operations compute by structural recursion. -/
structure JNum where
  man : Int
  exp10 : Int
deriving DecidableEq

/-- The rational value denoted by a `JNum`. -/
def JNum.toRat (a : JNum) : ℚ := (a.man : ℚ) * 10 ^ a.exp10

/-- Decidable order on exact decimals: scale both to a common power of ten
and compare the integer mantissas. -/
def jnumLe (a b : JNum) : Bool :=
  let m := min a.exp10 b.exp10
  a.man * 10 ^ (a.exp10 - m).toNat ≤ b.man * 10 ^ (b.exp10 - m).toNat

/-- Multiplication by 1000, as in `decoded.exp * 1000`; exact on decimals. -/
def jnumTimes1000 (a : JNum) : JNum := ⟨a.man, a.exp10 + 3⟩

/-- An integer as an exact decimal (e.g. `Date.now()` milliseconds). -/
def jnumOfInt (n : Int) : JNum := ⟨n, 0⟩

/-- A JSON value as produced by `JSON.parse`: the payload type of decoded
JWTs and of HTTP response bodies. -/
inductive Json where
  | null
  | bool (b : Bool)
  | num (q : JNum)
  | str (s : JStr)
  | arr (xs : List Json)
  | obj (fields : List (JStr × Json))

/-- JS truthiness of a JSON value (`null`, `false`, `0` and `""` are falsy;
arrays and objects are always truthy). -/
def truthy : Json → Bool
  | .null => false
  | .bool b => b
  | .num q => q.man ≠ 0
  | .str s => s ≠ []
  | .arr _ => true
  | .obj _ => true

/-- Model of JS property access `v[k]` on a parsed JSON value: `none` is JS
`undefined` (absent field or non-object receiver).  Later duplicate keys win,
matching `JSON.parse`. -/
def jGet (v : Json) (k : JStr) : Option Json :=
  match v with
  | .obj fields => fields.foldl (fun acc kv => if kv.1 == k then some kv.2 else acc) none
  | _ => none

/-- Is a JSON value a number, as in `typeof decoded.exp === 'number'`. -/
def isJsonNum : Json → Bool
  | .num _ => true
  | _ => false

/-! ### Model of the browser `atob` builtin (forgiving base64 decode) -/

/-- ASCII whitespace removed by forgiving base64 decoding. -/
def b64IsWs (c : Char) : Bool :=
  c = ' ' || c = '\t' || c = '\n' || c = '\x0c' || c = '\r'

/-- The value of one base64 alphabet character. -/
def b64Val (c : Char) : Option Nat :=
  if 'A' ≤ c ∧ c ≤ 'Z' then some (c.toNat - 'A'.toNat)
  else if 'a' ≤ c ∧ c ≤ 'z' then some (c.toNat - 'a'.toNat + 26)
  else if '0' ≤ c ∧ c ≤ '9' then some (c.toNat - '0'.toNat + 52)
  else if c = '+' then some 62
  else if c = '/' then some 63
  else none

/-- Map every character through `b64Val`, failing on any non-alphabet one. -/
def b64Vals : JStr → Option (List Nat)
  | [] => some []
  | c :: cs =>
    match b64Val c, b64Vals cs with
    | some v, some vs => some (v :: vs)
    | _, _ => none

/-- Reassemble 6-bit groups into bytes; a leftover of two or three groups
contributes one or two bytes (spilled low bits are discarded). -/
def b64Bytes : List Nat → List Nat
  | a :: b :: c :: d :: rest =>
    (a * 4 + b / 16) :: ((b % 16) * 16 + c / 4) :: ((c % 4) * 64 + d) :: b64Bytes rest
  | [a, b] => [a * 4 + b / 16]
  | [a, b, c] => [a * 4 + b / 16, (b % 16) * 16 + c / 4]
  | _ => []

/-- Strip one or two trailing padding characters. -/
def b64StripPad (l : JStr) : JStr :=
  match l.reverse with
  | '=' :: '=' :: r => r.reverse
  | '=' :: r => r.reverse
  | _ => l

/-- Model of the browser builtin `atob` (WHATWG forgiving-base64): remove
ASCII whitespace, strip padding when the length is a multiple of four,
reject a length of 1 mod 4 and any character outside the alphabet, and
decode the 6-bit groups into a byte string.  `none` models the thrown
`InvalidCharacterError`. -/
def jsAtob (s : JStr) : Option JStr :=
  let t := s.filter (fun c => !b64IsWs c)
  let t := if t.length % 4 == 0 then b64StripPad t else t
  if t.length % 4 == 1 then none
  else (b64Vals t).map (fun vs => (b64Bytes vs).map Char.ofNat)

/-! ### Model of the `JSON.parse` builtin -/

/-- JSON insignificant whitespace. -/
def jsonWs (c : Char) : Bool := c = ' ' || c = '\t' || c = '\n' || c = '\r'

/-- Drop leading JSON whitespace. -/
def jsonSkip : JStr → JStr
  | c :: cs => if jsonWs c then jsonSkip cs else c :: cs
  | [] => []

/-- Is `c` a decimal digit. -/
def digitChar (c : Char) : Bool := '0' ≤ c && c ≤ '9'

/-- Split off a maximal run of decimal digits. -/
def grabDigits (l : JStr) : JStr × JStr := l.span digitChar

/-- The natural number denoted by a digit run. -/
def digitsVal (ds : JStr) : Nat :=
  ds.foldl (fun acc c => 10 * acc + (c.toNat - 48)) 0

/-- The value of one hexadecimal digit. -/
def hexDigitVal (c : Char) : Option Nat :=
  if '0' ≤ c ∧ c ≤ '9' then some (c.toNat - '0'.toNat)
  else if 'a' ≤ c ∧ c ≤ 'f' then some (c.toNat - 'a'.toNat + 10)
  else if 'A' ≤ c ∧ c ≤ 'F' then some (c.toNat - 'A'.toNat + 10)
  else none

/-- One-character JSON escape table. -/
def jsonEscape (c : Char) : Option Char :=
  if c = '"' then some '"'
  else if c = '\\' then some '\\'
  else if c = '/' then some '/'
  else if c = 'b' then some (Char.ofNat 8)
  else if c = 'f' then some (Char.ofNat 12)
  else if c = 'n' then some '\n'
  else if c = 'r' then some '\r'
  else if c = 't' then some '\t'
  else none

/-- Parse the body of a JSON string after the opening quote; raw control
characters are rejected, as `JSON.parse` does. -/
def jsonStrBody (acc : JStr) : JStr → Option (JStr × JStr)
  | '"' :: rest => some (acc.reverse, rest)
  | '\\' :: 'u' :: a :: b :: c :: d :: rest =>
    match hexDigitVal a, hexDigitVal b, hexDigitVal c, hexDigitVal d with
    | some va, some vb, some vc, some vd =>
      jsonStrBody (Char.ofNat (((va * 16 + vb) * 16 + vc) * 16 + vd) :: acc) rest
    | _, _, _, _ => none
  | '\\' :: e :: rest =>
    match jsonEscape e with
    | some ch => jsonStrBody (ch :: acc) rest
    | none => none
  | c :: rest => if c.toNat < 32 then none else jsonStrBody (c :: acc) rest
  | [] => none

/-- Read the digits of an exponent whose sign has been consumed. -/
def jsonExpoDigits (sgn : Int) (tl : JStr) : Option (Int × JStr) :=
  let (ds, rem) := grabDigits tl
  if ds = [] then none else some (sgn * (digitsVal ds : Int), rem)

/-- Read an optional `e`/`E` exponent with an optional sign; yields the
signed exponent value and the remaining input, `0` when there is none. -/
def jsonExpoRead (rest : JStr) : Option (Int × JStr) :=
  match rest with
  | mark :: tl =>
    if mark = 'e' ∨ mark = 'E' then
      match tl with
      | '+' :: tl2 => jsonExpoDigits 1 tl2
      | '-' :: tl2 => jsonExpoDigits (-1) tl2
      | _ => jsonExpoDigits 1 tl
    else some (0, rest)
  | [] => some (0, [])

/-- Assemble a decimal from the sign, integer digits, fraction digits and the
exponent read from `rest`. -/
def jsonNumFinish (neg : Bool) (intDs fracDs rest : JStr) : Option (JNum × JStr) :=
  match jsonExpoRead rest with
  | none => none
  | some (e, rem) =>
    let base : Int := (digitsVal (intDs ++ fracDs) : Int)
    some (⟨if neg then -base else base, e - (fracDs.length : Int)⟩, rem)

/-- Parse a JSON number: optional minus, integer part without a leading zero,
optional fraction, optional exponent; value taken exactly as a decimal. -/
def jsonNumber (cs : JStr) : Option (JNum × JStr) :=
  let (neg, afterSign) := match cs with | '-' :: tl => (true, tl) | _ => (false, cs)
  let (intDs, afterInt) := grabDigits afterSign
  if intDs = [] then none
  else if 1 < intDs.length ∧ intDs.headD '0' = '0' then none
  else
    match afterInt with
    | '.' :: tl =>
      let (fracDs, afterFrac) := grabDigits tl
      if fracDs = [] then none else jsonNumFinish neg intDs fracDs afterFrac
    | _ => jsonNumFinish neg intDs [] afterInt

mutual

/-- Parse one JSON value (fuel-bounded recursive descent). -/
def jsonValue (fuel : Nat) (cs : JStr) : Option (Json × JStr) :=
  match fuel with
  | 0 => none
  | fuel + 1 =>
    match jsonSkip cs with
    | 'n' :: 'u' :: 'l' :: 'l' :: r => some (.null, r)
    | 't' :: 'r' :: 'u' :: 'e' :: r => some (.bool true, r)
    | 'f' :: 'a' :: 'l' :: 's' :: 'e' :: r => some (.bool false, r)
    | '"' :: r =>
      match jsonStrBody [] r with
      | some (s, r') => some (.str s, r')
      | none => none
    | '[' :: r =>
      match jsonSkip r with
      | ']' :: r' => some (.arr [], r')
      | r' =>
        match jsonItems fuel r' with
        | some (xs, r'') => some (.arr xs, r'')
        | none => none
    | '{' :: r =>
      match jsonSkip r with
      | '}' :: r' => some (.obj [], r')
      | r' =>
        match jsonFields fuel r' with
        | some (ms, r'') => some (.obj ms, r'')
        | none => none
    | c :: rest =>
      if c = '-' || digitChar c then
        match jsonNumber (c :: rest) with
        | some (n, r') => some (.num n, r')
        | none => none
      else none
    | [] => none

/-- Parse one or more comma-separated array items up to `']'`. -/
def jsonItems (fuel : Nat) (cs : JStr) : Option (List Json × JStr) :=
  match fuel with
  | 0 => none
  | fuel + 1 =>
    match jsonValue fuel cs with
    | none => none
    | some (v, r) =>
      match jsonSkip r with
      | ',' :: r' =>
        match jsonItems fuel r' with
        | some (vs, r'') => some (v :: vs, r'')
        | none => none
      | ']' :: r' => some ([v], r')
      | _ => none

/-- Parse one or more comma-separated object members up to a closing brace. -/
def jsonFields (fuel : Nat) (cs : JStr) : Option (List (JStr × Json) × JStr) :=
  match fuel with
  | 0 => none
  | fuel + 1 =>
    match jsonSkip cs with
    | '"' :: r =>
      match jsonStrBody [] r with
      | none => none
      | some (k, r1) =>
        match jsonSkip r1 with
        | ':' :: r2 =>
          match jsonValue fuel r2 with
          | none => none
          | some (v, r3) =>
            match jsonSkip r3 with
            | ',' :: r4 =>
              match jsonFields fuel r4 with
              | some (ms, r5) => some ((k, v) :: ms, r5)
              | none => none
            | '}' :: r4 => some ([(k, v)], r4)
            | _ => none
        | _ => none
    | _ => none

end

/-- Model of the `JSON.parse` builtin: parse one value surrounded only by
whitespace; `none` models the thrown `SyntaxError`. -/
def jsonParse (s : JStr) : Option Json :=
  match jsonValue (s.length + 1) s with
  | some (v, r) => if jsonSkip r = [] then some v else none
  | none => none

/-! ### Model of `src/utils/jwt.ts` -/

/-- The two global replaces in `decodeToken` that map every dash to a plus
and every underscore to a slash, turning base64url into base64 for `atob`. -/
def b64UrlFix (s : JStr) : JStr :=
  (s.map (fun c => if c = '-' then '+' else c)).map (fun c => if c = '_' then '/' else c)

/-- Model of `decodeToken` (`src/utils/jwt.ts` lines 87-100): split on `'.'`,
require exactly three segments, base64url-decode the second and `JSON.parse`
it; any failure (caught by the `try`) yields `none`, and no signature is ever
verified. -/
def decodeToken (token : JStr) : Option Json :=
  if (jsSplit '.' token).length ≠ 3 then none
  else
    match jsAtob (b64UrlFix ((jsSplit '.' token).getD 1 [])) with
    | none => none
    | some decoded => jsonParse decoded

/-- Model of `isTokenExpired` (lines 107-119).  `now` is `Date.now()` in
milliseconds.  A token that fails to decode, a falsy payload, or a payload
whose `exp` is not a number counts as expired; otherwise the token is expired
when `now >= exp * 1000`. -/
def isTokenExpired (now : Int) (token : JStr) : Bool :=
  match decodeToken token with
  | none => true
  | some decoded =>
    if !truthy decoded then true
    else
      match jGet decoded "exp".toList with
      | some (.num q) => jnumLe (jnumTimes1000 q) (jnumOfInt now)
      | _ => true

/-- Model of `isAuthenticated` (lines 125-131): `storage` is the token slot
of `localStorage` (`getToken`); a missing or empty token is falsy and gives
`false`, otherwise the result is the negation of `isTokenExpired`. -/
def isAuthenticated (now : Int) (storage : Option JStr) : Bool :=
  match storage with
  | none => false
  | some token => if token = [] then false else !isTokenExpired now token

/-! ### Model of `src/context/AuthContext.tsx` -/

/-- The user record `AuthProvider` builds from a decoded payload; each field
is the raw JSON property (`none` models `undefined`). -/
structure AuthUser where
  username : Option Json
  email : Option Json
  firstName : Option Json
  lastName : Option Json

/-- The field extraction in `login`/`initAuth`: `decoded.username`,
`decoded.email`, `decoded.first_name`, `decoded.last_name`. -/
def mkAuthUser (d : Json) : AuthUser :=
  ⟨jGet d "username".toList, jGet d "email".toList,
    jGet d "first_name".toList, jGet d "last_name".toList⟩

/-- The authentication state: the `localStorage` token slot and the `user`
React state. -/
structure AuthState where
  storedToken : Option JStr
  user : Option AuthUser

/-- Model of `logout`: `removeToken()` then `setUser(null)`. -/
def authLogout (_s : AuthState) : AuthState := ⟨none, none⟩

/-- Model of `login(token)` (`env.ts` lines 121-132): `setToken(token)`,
then decode; `setUser` runs only under the `if (decoded)` truthiness guard,
so both a failed decode and a falsy decoded payload (`0`, `false`, an empty
string, `null`) leave the user state untouched. -/
def authLogin (token : JStr) (s : AuthState) : AuthState :=
  match decodeToken token with
  | some d => if truthy d then ⟨some token, some (mkAuthUser d)⟩ else ⟨some token, s.user⟩
  | none => ⟨some token, s.user⟩

/-- The context value `isLoggedIn: !!user`. -/
def authIsLoggedIn (s : AuthState) : Bool := s.user.isSome

/-! ### Model of `src/components/Auth/ProtectedRoute.tsx` -/

/-- What one render of `ProtectedRoute` puts on screen. -/
inductive RouteRender where
  | loadingIndicator
  | navigate (dest : JStr) (fromLocation : JStr) (replace : Bool)
  | children
deriving DecidableEq

/-- Model of the `ProtectedRoute` component body (lines 13-38): the loading
branch renders only a spinner, the unauthenticated branch a replace-`Navigate`
to `/login` carrying the attempted location, and only the final branch the
children. -/
def protectedRoute (loading isLoggedIn : Bool) (location : JStr) : RouteRender :=
  if loading then .loadingIndicator
  else if !isLoggedIn then .navigate "/login".toList location true
  else .children

/-! ### Model of `src/components/Admin/Employees/EmployeeModal.tsx` -/

/-- An auth user as carried by the search sections and the employee form. -/
structure User where
  id : Int
  firstName : JStr
  lastName : JStr
  email : JStr
  username : JStr
  isActive : Bool
deriving DecidableEq

/-- The `formData` React state of `EmployeeModal` (the hourly rate is a JS
number, never `NaN`, since `handleChange` maps a failed `parseFloat` to 0). -/
structure EmpFormData where
  gender : JStr
  birthDate : JStr
  address : JStr
  contactNumber : JStr
  position : JStr
  hourlyRate : JNum
  joinedDate : JStr
  resignedDate : JStr
  description : JStr
  isActive : Bool

/-- Model of `validateForm` (lines 130-145): the checks in source order,
returning the first error message, or `none` when every check passes. -/
def validateForm (isEditMode : Bool) (selectedUser : Option User) (f : EmpFormData) :
    Option JStr :=
  if !isEditMode && selectedUser.isNone then
    some "Please search and select an auth user first".toList
  else if f.gender = [] then some "Gender is required".toList
  else if f.birthDate = [] then some "Birth date is required".toList
  else if jsTrim f.address = [] then some "Address is required".toList
  else if jsTrim f.contactNumber = [] then some "Contact number is required".toList
  else if jsTrim f.position = [] then some "Position is required".toList
  else if jnumLe f.hourlyRate ⟨0, 0⟩ then some "Hourly rate must be greater than 0".toList
  else if f.joinedDate = [] then some "Joined date is required".toList
  else none

/-- Model of `handleSubmit` (lines 150-183): a validation error is stored and
`onSubmit` is not called; otherwise `onSubmit` runs (first component `true`).
The `submitData` payload built on the success path constrains no claim and is
not modelled. -/
def handleSubmit (isEditMode : Bool) (selectedUser : Option User) (f : EmpFormData) :
    Bool × Option JStr :=
  match validateForm isEditMode selectedUser f with
  | some e => (false, some e)
  | none => (true, none)

/-! ### Model of the debounced search sections -/

/-- The React state shared by `UserSearchSection` and
`SupplierSearchSection`: result list, searching flag, dropdown visibility and
error message. -/
structure SearchState (α : Type) where
  searchResults : List α
  isSearching : Bool
  showDropdown : Bool
  error : Option JStr

/-- How the one backend search promise settles: a result list, or a rejection
whose `message` property is `some m` when present. -/
inductive SearchOutcome (α : Type) where
  | ok (results : List α)
  | fail (message : Option JStr)

/-- Model of the `searchUsers` effect in `UserSearchSection` (part_004 lines
36-64), run when the debounced query changes.  The first component counts the
`userService.search` calls issued.  A query shorter than two characters, or
edit mode, clears the results and hides the dropdown without a request; a
response shows the dropdown exactly when non-empty; a rejection stores the
message (or the fallback text) and clears the results. -/
def userSearchEffect (isEditMode : Bool) (debouncedQuery : JStr)
    (outcome : SearchOutcome User) (s : SearchState User) : Nat × SearchState User :=
  if debouncedQuery.length < 2 || isEditMode then
    (0, { s with searchResults := [], showDropdown := false })
  else
    match outcome with
    | .ok rs =>
      (1, { s with error := none, searchResults := rs,
                   showDropdown := decide (0 < rs.length), isSearching := false })
    | .fail m =>
      (1, { s with error := some (m.getD "Failed to search users".toList),
                   searchResults := [], isSearching := false })

/-- A supplier record as displayed by the supplier search section. -/
structure Supplier where
  id : Int
  name : JStr
  email : JStr
  contactNumber : JStr
deriving DecidableEq

/-- The message of the `TypeError` raised by `supplierService.search(...)`:
`SupplierService` (`src/services/supplierService.ts`) defines `getAll`,
`getById`, `create`, `update` and `delete` but no `search`, so the call in
`SupplierSearchSection.tsx` line 49 invokes `undefined`.  The exact text is
engine-dependent; only its presence matters below. -/
def supplierSearchTypeErrMsg : JStr := "supplierService.search is not a function".toList

/-- Model of the `searchSuppliers` effect in `SupplierSearchSection.tsx`
(lines 36-64).  The first component counts backend search requests.  A short
query clears results and hides the dropdown.  For a longer query the call
`supplierService.search(debouncedQuery)` throws a `TypeError` before any
request is issued (no such method exists), so the `catch` stores the error
message and clears the results — the dropdown flag is left unchanged and the
request count is 0 on every path. -/
def supplierSearchEffect (debouncedQuery : JStr) (s : SearchState Supplier) :
    Nat × SearchState Supplier :=
  if debouncedQuery.length < 2 then
    (0, { s with searchResults := [], showDropdown := false })
  else
    (0, { s with error := some supplierSearchTypeErrMsg,
                 searchResults := [], isSearching := false })

/-! ### Model of `src/services/supplierService.ts` -/

/-- A query-string parameter value (`Record<string, string | number>`). -/
inductive ParamVal where
  | pstr (s : JStr)
  | pnum (n : JNum)
deriving DecidableEq

/-- The call a service method hands to the `ApiService` singleton: HTTP
method, endpoint path, query parameters, and request body of type `β`. -/
structure ApiCall (β : Type) where
  method : JStr
  endpoint : JStr
  params : List (JStr × ParamVal)
  body : Option β

/-- Model of the private `withSlash` helper duplicated in
`supplierService.ts` lines 41-43 and `userService.ts` lines 30-32: append a
trailing slash unless one is already there. -/
def withSlash (path : JStr) : JStr :=
  if jsEndsWithSlash path then path else path ++ "/".toList

/-- The `basePath` field of `SupplierService`. -/
def supplierBasePath : JStr := "/master-data/suppliers".toList

/-- The template-literal interpolation of a numeric id into a path. -/
def jsIntToStr (i : Int) : JStr := (toString i).toList

/-- The payload of `SupplierService.create`. -/
structure CreateSupplierData where
  name : JStr
  address : JStr
  contactNumber : JStr
  email : JStr
  description : JStr

/-- The payload of `SupplierService.update` (`Partial<CreateSupplierData>`). -/
structure PartialSupplierData where
  name : Option JStr
  address : Option JStr
  contactNumber : Option JStr
  email : Option JStr
  description : Option JStr

/-- Model of `SupplierService.getAll` (lines 51-58): `page` and `pageSize`
are added when not `undefined`, `search` when truthy, and the call is a GET
on the slash-terminated base path with no body. -/
def supplierGetAll (page pageSize : Option JNum) (search : Option JStr) : ApiCall Empty :=
  { method := "GET".toList
    endpoint := withSlash supplierBasePath
    params :=
      (match page with
        | some p => [("page".toList, ParamVal.pnum p)]
        | none => []) ++
      (match pageSize with
        | some p => [("pageSize".toList, ParamVal.pnum p)]
        | none => []) ++
      (match search with
        | some q => if q = [] then [] else [("search".toList, ParamVal.pstr q)]
        | none => [])
    body := none }

/-- Model of `SupplierService.getById` (lines 64-66). -/
def supplierGetById (id : Int) : ApiCall Empty :=
  { method := "GET".toList
    endpoint := withSlash (supplierBasePath ++ "/".toList ++ jsIntToStr id)
    params := []
    body := none }

/-- Model of `SupplierService.create` (lines 72-74). -/
def supplierCreate (data : CreateSupplierData) : ApiCall CreateSupplierData :=
  { method := "POST".toList
    endpoint := withSlash supplierBasePath
    params := []
    body := some data }

/-- Model of `SupplierService.update` (lines 81-83). -/
def supplierUpdate (id : Int) (data : PartialSupplierData) : ApiCall PartialSupplierData :=
  { method := "PUT".toList
    endpoint := withSlash (supplierBasePath ++ "/".toList ++ jsIntToStr id)
    params := []
    body := some data }

/-- Model of `SupplierService.delete` (lines 89-91). -/
def supplierDelete (id : Int) : ApiCall Empty :=
  { method := "DELETE".toList
    endpoint := withSlash (supplierBasePath ++ "/".toList ++ jsIntToStr id)
    params := []
    body := none }

/-! ### Model of `src/services/api.ts` -/

/-- The observable part of a fetch `Response`: status, the `content-type`
header (`none` when absent) and the raw body text. -/
structure JsResponse where
  status : Nat
  contentType : Option JStr
  body : JStr

/-- The Fetch standard's `Response.ok`: status in the range 200-299. -/
def responseOk (r : JsResponse) : Bool := 200 ≤ r.status && r.status ≤ 299

/-- A value thrown inside `ApiService`: either one of the `ApiError`-shaped
object literals (`message`, `status` and optional `errors`), or a JS `Error`
instance with its `name` and `message` (abort errors, network errors, body
parse errors). -/
inductive JsErr where
  | apiErr (message : Json) (status : Nat) (errors : Option Json)
  | excErr (name : JStr) (message : JStr)

/-- The `ApiResponse<T>` value a successful request resolves with. -/
structure ApiResp where
  data : Json
  message : Option Json
  success : Bool

/-- Side effects of `handleResponse`: whether the token was removed and where
`window.location.href` was set. -/
structure AuthEffects where
  tokenRemoved : Bool
  redirect : Option JStr
deriving DecidableEq

/-- The `data?.message || 'An error occurred'` fallback. -/
def errMessageOf (data : Json) : Json :=
  match jGet data "message".toList with
  | some v => if truthy v then v else .str "An error occurred".toList
  | none => .str "An error occurred".toList

/-- The body-reading step of `handleResponse` (lines 90-96): when the
`content-type` header includes `application/json` the body goes through
`response.json()` — whose `SyntaxError` on a malformed body propagates —
and otherwise it is kept as the text string. -/
def parseBody (r : JsResponse) : Except JsErr Json :=
  match r.contentType with
  | some ct =>
    if jsIncludes "application/json".toList ct then
      match jsonParse r.body with
      | some j => .ok j
      | none => .error (.excErr "SyntaxError".toList "Unexpected token in JSON".toList)
    else .ok (.str r.body)
  | none => .ok (.str r.body)

/-- Model of `ApiService.handleResponse` (lines 81-113).  A 401 removes the
token, redirects to `/login` and throws the session-expired literal before
the body is touched.  Otherwise the body is read by `parseBody`; a non-ok
status throws the `ApiError` built from the parsed body, and an ok status
resolves with `success: true`. -/
def handleResponse (r : JsResponse) : AuthEffects × Except JsErr ApiResp :=
  if r.status = 401 then
    (⟨true, some "/login".toList⟩,
      .error (.apiErr (.str "Session expired. Please login again.".toList) 401 none))
  else
    match parseBody r with
    | .error e => (⟨false, none⟩, .error e)
    | .ok data =>
      if !responseOk r then
        (⟨false, none⟩, .error (.apiErr (errMessageOf data) r.status (jGet data "errors".toList)))
      else
        (⟨false, none⟩, .ok ⟨data, jGet data "message".toList, true⟩)

/-- How the race in `fetchWithTimeout` settles: the fetch resolves with a
response before the `setTimeout` fires; the timer fires first, aborts the
controller and the fetch rejects with an `AbortError`; or the fetch rejects
on its own with some `Error` before the timer fires. -/
inductive FetchOutcome where
  | success (r : JsResponse)
  | timedOut
  | failure (name : JStr) (message : JStr)

/-- Model of `ApiService.fetchWithTimeout` (lines 118-136).  The first
component counts the `fetch` calls made (the body contains exactly one).  An
abort-named rejection — in particular the one produced by the timeout — is
replaced by the request-timeout literal; any other rejection is rethrown
unchanged. -/
def fetchWithTimeout (o : FetchOutcome) : Nat × Except JsErr JsResponse :=
  match o with
  | .success r => (1, .ok r)
  | .timedOut => (1, .error (.apiErr (.str "Request timeout".toList) 408 none))
  | .failure name msg =>
    if name = "AbortError".toList then
      (1, .error (.apiErr (.str "Request timeout".toList) 408 none))
    else (1, .error (.excErr name msg))

/-- The full observable result of one `ApiService.request`. -/
structure ReqResult where
  fetchCalls : Nat
  effects : AuthEffects
  outcome : Except JsErr ApiResp

/-- Model of `ApiService.request` (lines 141-185): one `fetchWithTimeout`
call, whose response goes through `handleResponse`; every error — timeout,
fetch failure or response error — is rethrown unchanged after the optional
debug logging.  The URL, header and body construction has no bearing on the
outcome and is modelled by `supplierGetAll` and friends instead. -/
def apiRequest (debugMode : Bool) (method : JStr) (o : FetchOutcome) : ReqResult :=
  let (n, fr) := fetchWithTimeout o
  let _ := debugMode
  let _ := method
  match fr with
  | .error e => ⟨n, ⟨false, none⟩, .error e⟩
  | .ok r =>
    let (eff, res) := handleResponse r
    ⟨n, eff, res⟩

/-- Model of `ApiService.get` (lines 194-196). -/
def apiGet (debugMode : Bool) (o : FetchOutcome) : ReqResult :=
  apiRequest debugMode "GET".toList o

/-- Model of `ApiService.post` (lines 201-203). -/
def apiPost (debugMode : Bool) (o : FetchOutcome) : ReqResult :=
  apiRequest debugMode "POST".toList o

/-- Model of `ApiService.put` (lines 208-210). -/
def apiPut (debugMode : Bool) (o : FetchOutcome) : ReqResult :=
  apiRequest debugMode "PUT".toList o

/-- Model of `ApiService.patch` (lines 215-217). -/
def apiPatch (debugMode : Bool) (o : FetchOutcome) : ReqResult :=
  apiRequest debugMode "PATCH".toList o

/-- Model of `ApiService.delete` (lines 222-224). -/
def apiDelete (debugMode : Bool) (o : FetchOutcome) : ReqResult :=
  apiRequest debugMode "DELETE".toList o

/-! ## Bridging lemmas -/

/-- The decidable comparison `jnumLe` agrees with the rational order. -/
theorem jnumLe_iff (a b : JNum) : jnumLe a b = true ↔ a.toRat ≤ b.toRat := by
  unfold jnumLe JNum.toRat
  simp only [decide_eq_true_eq]
  have ha : (0 : ℤ) ≤ a.exp10 - min a.exp10 b.exp10 := sub_nonneg.mpr (min_le_left _ _)
  have hb : (0 : ℤ) ≤ b.exp10 - min a.exp10 b.exp10 := sub_nonneg.mpr (min_le_right _ _)
  rw [← @Int.cast_le ℚ]
  push_cast
  rw [← zpow_natCast (10 : ℚ) (a.exp10 - min a.exp10 b.exp10).toNat,
      ← zpow_natCast (10 : ℚ) (b.exp10 - min a.exp10 b.exp10).toNat,
      Int.toNat_of_nonneg ha, Int.toNat_of_nonneg hb]
  have h10 : (10 : ℚ) ≠ 0 := by norm_num
  rw [sub_eq_add_neg, sub_eq_add_neg, zpow_add₀ h10, zpow_add₀ h10]
  have hpos : (0 : ℚ) < 10 ^ (-(min a.exp10 b.exp10)) := by positivity
  rw [← mul_assoc, ← mul_assoc]
  exact mul_le_mul_right hpos

/-- Multiplying an exact decimal by 1000 multiplies its value by 1000. -/
theorem toRat_times1000 (q : JNum) : (jnumTimes1000 q).toRat = q.toRat * 1000 := by
  unfold jnumTimes1000 JNum.toRat
  have h10 : (10 : ℚ) ≠ 0 := by norm_num
  rw [zpow_add₀ h10]
  push_cast
  ring_nf

/-- An integer embeds into exact decimals with its own value. -/
theorem toRat_ofInt (n : Int) : (jnumOfInt n).toRat = (n : ℚ) := by
  unfold jnumOfInt JNum.toRat
  norm_num

/-- The zero decimal denotes zero. -/
theorem toRat_zero : (JNum.toRat ⟨0, 0⟩) = 0 := by norm_num [JNum.toRat]

/-- The check `hourlyRate <= 0` fails exactly for positive values. -/
theorem jnumLe_zero_iff (q : JNum) : jnumLe q ⟨0, 0⟩ = false ↔ 0 < q.toRat := by
  have h := jnumLe_iff q ⟨0, 0⟩
  rw [toRat_zero] at h
  rw [← not_le, ← h, Bool.not_eq_true]

/-- A falsy JSON value is never an object, so property access gives
`undefined`. -/
theorem jGet_of_falsy (d : Json) (k : JStr) (h : truthy d = false) : jGet d k = none := by
  cases d <;> first | rfl | simp [truthy] at h

/-- The output of `withSlash` always ends in a slash. -/
theorem withSlash_last (p : JStr) : jsEndsWithSlash (withSlash p) = true := by
  unfold withSlash
  by_cases h : jsEndsWithSlash p
  · simp [h]
  · rw [if_neg h]
    unfold jsEndsWithSlash
    rw [show ("/".toList : JStr) = ['/'] from rfl, List.getLast?_concat]
    rfl

/-! ## The claims -/

/-- C1: authentication is decided by locally decoding the JWT.  For every
token, `isTokenExpired` is true exactly when the token fails to decode, the
payload has no numeric `exp`, or the current millisecond time is at or past
`exp * 1000` (a token exactly at its expiry instant is expired); and
`isAuthenticated` is true exactly when a token is present in storage and
`isTokenExpired` of it is false. -/
theorem C1_token_expiry_decides_auth (now : Int) (storage : Option JStr) (t : JStr) :
    (isTokenExpired now t = true ↔
      decodeToken t = none ∨
      (∃ d, decodeToken t = some d ∧ jGet d "exp".toList = none) ∨
      (∃ d v, decodeToken t = some d ∧ jGet d "exp".toList = some v ∧ isJsonNum v = false) ∨
      (∃ d q, decodeToken t = some d ∧ jGet d "exp".toList = some (Json.num q) ∧
        q.toRat * 1000 ≤ (now : ℚ))) ∧
    (isAuthenticated now storage = true ↔
      ∃ tok, storage = some tok ∧ isTokenExpired now tok = false) := by
  constructor
  · unfold isTokenExpired
    cases hd : decodeToken t
    · simp
    · case _ d =>
      simp only [hd, Option.some.injEq, reduceCtorEq, false_or]
      by_cases ht : truthy d
      · rw [ht]
        simp only [Bool.not_true, if_false]
        cases hexp : jGet d "exp".toList <;>
          rw [show ("exp".toList : JStr) = ['e', 'x', 'p'] from rfl] at hexp
        · simp [hexp]
        · case _ v =>
          cases v <;>
            simp [hexp, isJsonNum, jnumLe_iff, toRat_times1000, toRat_ofInt]
      · rw [Bool.not_eq_true] at ht
        rw [ht]
        simp [jGet_of_falsy d ['e', 'x', 'p'] ht]
  · cases storage
    · simp [isAuthenticated]
    · case _ tok =>
      simp only [isAuthenticated]
      by_cases htok : tok = ([] : JStr)
      · subst htok
        have hexp : isTokenExpired now [] = true := rfl
        simp [hexp]
      · rw [if_neg htok]
        simp [Bool.not_eq_true]

/-- Witness for C1 at a concrete token: the payload `exp: 5` is expired at
6000 ms and not yet expired at 4999 ms (`NQ` is base64url for the JSON `5`;
`eyJleHAiOjEyM30` decodes to a payload with `exp: 123`). -/
theorem C1_token_expiry_witness :
    isTokenExpired 123000 "h.eyJleHAiOjEyM30.s".toList = true ∧
    isTokenExpired 122999 "h.eyJleHAiOjEyM30.s".toList = false ∧
    isAuthenticated 122999 (some "h.eyJleHAiOjEyM30.s".toList) = true := by
  refine ⟨?_, by decide, by decide⟩
  exact (C1_token_expiry_decides_auth 123000 none "h.eyJleHAiOjEyM30.s".toList).1.mpr
    (Or.inr (Or.inr (Or.inr ⟨Json.obj [("exp".toList, Json.num ⟨123, 0⟩)], ⟨123, 0⟩,
      rfl, rfl, by norm_num [JNum.toRat]⟩)))

/-- C2: every request through `ApiService` makes exactly one fetch call with
no retry; a timeout aborts the fetch and rejects with the request-timeout
literal (status 408); any non-abort fetch failure is rethrown unchanged; and
all five public methods are the one `request` pipeline. -/
theorem C2_single_fetch_timeout (debugMode : Bool) (method : JStr) (o : FetchOutcome) :
    (apiRequest debugMode method o).fetchCalls = 1 ∧
    (o = .timedOut →
      (apiRequest debugMode method o).outcome =
        .error (.apiErr (.str "Request timeout".toList) 408 none)) ∧
    (∀ name msg, o = .failure name msg → name ≠ "AbortError".toList →
      (apiRequest debugMode method o).outcome = .error (.excErr name msg)) ∧
    apiGet debugMode o = apiRequest debugMode "GET".toList o ∧
    apiPost debugMode o = apiRequest debugMode "POST".toList o ∧
    apiPut debugMode o = apiRequest debugMode "PUT".toList o ∧
    apiPatch debugMode o = apiRequest debugMode "PATCH".toList o ∧
    apiDelete debugMode o = apiRequest debugMode "DELETE".toList o := by
  refine ⟨?_, ?_, ?_, rfl, rfl, rfl, rfl, rfl⟩
  · cases o with
    | success r => rfl
    | timedOut => rfl
    | failure name msg =>
      by_cases h : name = "AbortError".toList
      · simp [apiRequest, fetchWithTimeout, h]
      · simp only [apiRequest, fetchWithTimeout]
        rw [if_neg h]
  · rintro rfl
    rfl
  · rintro name msg rfl hne
    simp only [apiRequest, fetchWithTimeout]
    rw [if_neg hne]

/-- Witness for C2: a timed-out GET yields one fetch call and the 408
request-timeout rejection. -/
theorem C2_single_fetch_timeout_witness :
    (apiGet false FetchOutcome.timedOut).fetchCalls = 1 ∧
    (apiGet false FetchOutcome.timedOut).outcome =
      .error (.apiErr (.str "Request timeout".toList) 408 none) :=
  ⟨(C2_single_fetch_timeout false "GET".toList FetchOutcome.timedOut).1,
    (C2_single_fetch_timeout false "GET".toList FetchOutcome.timedOut).2.1 rfl⟩

/-- C3: `ProtectedRoute` renders its children exactly when loading is over
and the user is logged in; when loading is over and the user is not logged
in it renders a replace-navigation to `/login` carrying the attempted
location; while loading it renders only the loading indicator. -/
theorem C3_protected_route_gates (loading isLoggedIn : Bool) (location : JStr) :
    (protectedRoute loading isLoggedIn location = .children ↔
      loading = false ∧ isLoggedIn = true) ∧
    (loading = false → isLoggedIn = false →
      protectedRoute loading isLoggedIn location = .navigate "/login".toList location true) ∧
    (loading = true → protectedRoute loading isLoggedIn location = .loadingIndicator) := by
  cases loading <;> cases isLoggedIn <;> simp [protectedRoute]

/-- Witness for C3: an unauthenticated render of `/admin` navigates to the
login page with the attempted location and `replace`. -/
theorem C3_protected_route_witness :
    protectedRoute false false "/admin".toList =
      .navigate "/login".toList "/admin".toList true :=
  (C3_protected_route_gates false false "/admin".toList).2.1 rfl rfl

/-- C4: `decodeToken` is total (modelled by returning an `Option`, the
`try/catch` making every failure `none`): a token without exactly three
dot-separated segments gives `none`; so does a second segment that `atob`
rejects or whose decoding is not valid JSON; otherwise the parsed payload of
the second segment is returned, with no signature verification anywhere. -/
theorem C4_decode_token_total (t : JStr) :
    ((jsSplit '.' t).length ≠ 3 → decodeToken t = none) ∧
    ((jsSplit '.' t).length = 3 →
      (jsAtob (b64UrlFix ((jsSplit '.' t).getD 1 [])) = none → decodeToken t = none) ∧
      (∀ bs, jsAtob (b64UrlFix ((jsSplit '.' t).getD 1 [])) = some bs →
        (jsonParse bs = none → decodeToken t = none) ∧
        (∀ v, jsonParse bs = some v → decodeToken t = some v))) := by
  constructor
  · intro h
    simp [decodeToken, h]
  · intro h3
    have hcond : ¬((jsSplit '.' t).length ≠ 3) := by simp [h3]
    constructor
    · intro ha
      unfold decodeToken
      rw [if_neg hcond, ha]
    · intro bs hbs
      constructor
      · intro hp
        unfold decodeToken
        rw [if_neg hcond, hbs]
        exact hp
      · intro v hv
        unfold decodeToken
        rw [if_neg hcond, hbs]
        exact hv

/-- Witness for C4: `NQ` is base64url for the byte string `5`, so the token
`x.NQ.y` decodes to the JSON number 5; and inputs with the wrong number of
segments or undecodable payloads give `none`. -/
theorem C4_decode_token_witness :
    decodeToken "x.NQ.y".toList = some (Json.num ⟨5, 0⟩) ∧
    decodeToken "x.y".toList = none ∧
    decodeToken "x.!!.y".toList = none :=
  ⟨(((C4_decode_token_total "x.NQ.y".toList).2 (by decide)).2 "5".toList (by decide)).2
      (Json.num ⟨5, 0⟩) rfl,
    (C4_decode_token_total "x.y".toList).1 (by decide),
    ((C4_decode_token_total "x.!!.y".toList).2 (by decide)).1 (by decide)⟩

/-- C5 (the supplier half of the claim, evaluated at the failing input):
`SupplierService` defines no `search` method, so for any debounced query of
length at least 2 the supplier search section issues zero backend search
requests — the call throws a `TypeError` whose message lands in the error
state while the results are cleared — and in fact no path of the effect ever
issues a request. -/
theorem C5_supplier_search_never_requests (s : SearchState Supplier) :
    (supplierSearchEffect "ab".toList s).1 = 0 ∧
    (supplierSearchEffect "ab".toList s).2.error = some supplierSearchTypeErrMsg ∧
    (supplierSearchEffect "ab".toList s).2.searchResults = [] ∧
    (∀ (q : JStr) (s' : SearchState Supplier), (supplierSearchEffect q s').1 = 0) := by
  refine ⟨rfl, rfl, rfl, ?_⟩
  intro q s'
  unfold supplierSearchEffect
  split <;> rfl

/-- C6: `EmployeeModal.handleSubmit` calls `onSubmit` exactly when
`validateForm` returns no error, which holds exactly when (in create mode) a
user is selected, gender, birth date and joined date are non-empty, address,
contact number and position are non-empty after trimming, and the hourly
rate is strictly positive; otherwise the first failing check's message is
stored and `onSubmit` is not called. -/
theorem C6_validation_gates_submit (em : Bool) (u : Option User) (f : EmpFormData) :
    ((handleSubmit em u f).1 = true ↔ validateForm em u f = none) ∧
    (validateForm em u f = none ↔
      ((em = false → u.isSome = true) ∧ f.gender ≠ [] ∧ f.birthDate ≠ [] ∧
        jsTrim f.address ≠ [] ∧ jsTrim f.contactNumber ≠ [] ∧ jsTrim f.position ≠ [] ∧
        0 < f.hourlyRate.toRat ∧ f.joinedDate ≠ [])) ∧
    (∀ e, validateForm em u f = some e → handleSubmit em u f = (false, some e)) := by
  refine ⟨?_, ?_, ?_⟩
  · cases hv : validateForm em u f <;> simp [handleSubmit, hv]
  · unfold validateForm
    cases em <;> cases u <;>
      split_ifs <;>
        simp_all [← jnumLe_zero_iff, Bool.not_eq_true]
  · intro e hv
    simp [handleSubmit, hv]

/-- Witness for C6: a fully filled create-mode form submits, and the same
form without a selected user is rejected with the user-selection message. -/
theorem C6_validation_witness :
    (handleSubmit false
        (some ⟨7, "Ann".toList, "Lee".toList, "a@b.c".toList, "ann".toList, true⟩)
        ⟨"Female".toList, "1990-01-02".toList, "12 Main St".toList, "0771234567".toList,
          "Manager".toList, ⟨25, 0⟩, "2020-01-01".toList, [], [], true⟩).1 = true ∧
    handleSubmit false none
        ⟨"Female".toList, "1990-01-02".toList, "12 Main St".toList, "0771234567".toList,
          "Manager".toList, ⟨25, 0⟩, "2020-01-01".toList, [], [], true⟩ =
      (false, some "Please search and select an auth user first".toList) := by
  constructor
  · exact (C6_validation_gates_submit false
      (some ⟨7, "Ann".toList, "Lee".toList, "a@b.c".toList, "ann".toList, true⟩)
      ⟨"Female".toList, "1990-01-02".toList, "12 Main St".toList, "0771234567".toList,
        "Manager".toList, ⟨25, 0⟩, "2020-01-01".toList, [], [], true⟩).1.mpr (by decide)
  · exact (C6_validation_gates_submit false none
      ⟨"Female".toList, "1990-01-02".toList, "12 Main St".toList, "0771234567".toList,
        "Manager".toList, ⟨25, 0⟩, "2020-01-01".toList, [], [], true⟩).2.2 _ (by decide)

/-- C7 as amended: every supplier operation is a single REST call on the
`/master-data/suppliers` base path — `getAll` a GET passing `page` and
`pageSize` exactly when supplied and `search` exactly when supplied and
non-empty, `getById` a GET on the id path, `create` a POST whose body is the
supplier data, `update` a PUT whose body is the partial data, `delete` a
DELETE — and every endpoint ends with a trailing slash. -/
theorem C7_supplier_rest_calls (page pageSize : Option JNum) (search : Option JStr)
    (id : Int) (cdata : CreateSupplierData) (pdata : PartialSupplierData) :
    ((supplierGetAll page pageSize search).method = "GET".toList ∧
      (supplierGetAll page pageSize search).endpoint = withSlash supplierBasePath ∧
      (supplierGetAll page pageSize search).body = none ∧
      ((∃ v, ("page".toList, v) ∈ (supplierGetAll page pageSize search).params) ↔
        page.isSome = true) ∧
      ((∃ v, ("pageSize".toList, v) ∈ (supplierGetAll page pageSize search).params) ↔
        pageSize.isSome = true) ∧
      ((∃ v, ("search".toList, v) ∈ (supplierGetAll page pageSize search).params) ↔
        (∃ q, search = some q ∧ q ≠ [])) ∧
      (∀ k v, (k, v) ∈ (supplierGetAll page pageSize search).params →
        k = "page".toList ∨ k = "pageSize".toList ∨ k = "search".toList)) ∧
    supplierGetById id =
      ⟨"GET".toList, withSlash (supplierBasePath ++ "/".toList ++ jsIntToStr id), [], none⟩ ∧
    supplierCreate cdata = ⟨"POST".toList, withSlash supplierBasePath, [], some cdata⟩ ∧
    supplierUpdate id pdata =
      ⟨"PUT".toList, withSlash (supplierBasePath ++ "/".toList ++ jsIntToStr id), [],
        some pdata⟩ ∧
    supplierDelete id =
      ⟨"DELETE".toList, withSlash (supplierBasePath ++ "/".toList ++ jsIntToStr id), [],
        none⟩ ∧
    jsEndsWithSlash (supplierGetAll page pageSize search).endpoint = true ∧
    jsEndsWithSlash (supplierGetById id).endpoint = true ∧
    jsEndsWithSlash (supplierCreate cdata).endpoint = true ∧
    jsEndsWithSlash (supplierUpdate id pdata).endpoint = true ∧
    jsEndsWithSlash (supplierDelete id).endpoint = true := by
  refine ⟨⟨rfl, rfl, rfl, ?_, ?_, ?_, ?_⟩, rfl, rfl, rfl, rfl,
    by rw [show (supplierGetAll page pageSize search).endpoint = withSlash supplierBasePath from
        rfl]; exact withSlash_last _,
    by exact withSlash_last (supplierBasePath ++ "/".toList ++ jsIntToStr id),
    by rw [show (supplierCreate cdata).endpoint = withSlash supplierBasePath from rfl];
       exact withSlash_last _,
    by exact withSlash_last (supplierBasePath ++ "/".toList ++ jsIntToStr id),
    by exact withSlash_last (supplierBasePath ++ "/".toList ++ jsIntToStr id)⟩
  · cases page <;> cases pageSize <;> cases search <;>
      simp [supplierGetAll]
  · cases page <;> cases pageSize <;> cases search <;>
      simp [supplierGetAll]
  · cases page <;> cases pageSize <;> cases search <;>
      simp [supplierGetAll]
  · intro k v hkv
    unfold supplierGetAll at hkv
    simp only [List.mem_append] at hkv
    rcases hkv with (h | h) | h
    · cases page <;> simp_all
    · cases pageSize <;> simp_all
    · cases search with
      | none => simp_all
      | some q => by_cases hq : q = ([] : JStr) <;> simp_all

/-- Counterexample to C7 as stated: an empty search string is a supplied
`search` argument, yet `getAll` passes no parameters at all, because the
source guards the search parameter with JS truthiness rather than with an
`undefined` check. -/
theorem C7_supplier_empty_search_dropped :
    (some ([] : JStr)).isSome = true ∧
    (supplierGetAll none none (some [])).params = [] :=
  ⟨rfl, rfl⟩

/-- C8 as amended: `handleResponse` on a 401 removes the token, redirects to
`/login` and throws the session-expired literal without reading the body; on
any other status, when the body reads successfully, a non-ok status throws
an `ApiError` carrying the response status and the body's `message` field
(or the fallback text), and an ok status resolves with `success: true` and
the body as data; a body whose declared-JSON content fails to parse instead
propagates the parse error. -/
theorem C8_handle_response_cases (r : JsResponse) :
    (r.status = 401 →
      handleResponse r =
        (⟨true, some "/login".toList⟩,
          .error (.apiErr (.str "Session expired. Please login again.".toList) 401 none))) ∧
    (r.status ≠ 401 →
      (∀ e, parseBody r = .error e → handleResponse r = (⟨false, none⟩, .error e)) ∧
      (∀ data, parseBody r = .ok data →
        (responseOk r = false →
          handleResponse r =
            (⟨false, none⟩,
              .error (.apiErr (errMessageOf data) r.status (jGet data "errors".toList)))) ∧
        (responseOk r = true →
          handleResponse r = (⟨false, none⟩, .ok ⟨data, jGet data "message".toList, true⟩)))) := by
  constructor
  · intro h
    simp [handleResponse, h]
  · intro h
    constructor
    · intro e he
      simp [handleResponse, h, he]
    · intro data hd
      constructor
      · intro hok
        simp [handleResponse, h, hd, hok]
      · intro hok
        simp [handleResponse, h, hd, hok]

/-- Counterexample to C8 as stated: a 500 response declaring JSON but with
the malformed body `x` does not throw an `ApiError` with status 500 — the
`SyntaxError` from `response.json()` propagates instead. -/
theorem C8_malformed_body_not_apierror :
    (handleResponse ⟨500, some "application/json".toList, "x".toList⟩).2 =
      .error (.excErr "SyntaxError".toList "Unexpected token in JSON".toList) ∧
    ∀ (m : Json) (er : Option Json),
      (handleResponse ⟨500, some "application/json".toList, "x".toList⟩).2 ≠
        .error (.apiErr m 500 er) := by
  have hc : (handleResponse ⟨500, some "application/json".toList, "x".toList⟩).2 =
      .error (.excErr "SyntaxError".toList "Unexpected token in JSON".toList) := rfl
  refine ⟨hc, ?_⟩
  intro m er h
  rw [hc] at h
  simp at h

/-- Witness for C8 at concrete responses: a 401 redirects and throws the
session-expired literal, and an ok JSON response resolves successfully. -/
theorem C8_handle_response_witness :
    handleResponse ⟨401, none, []⟩ =
      (⟨true, some "/login".toList⟩,
        .error (.apiErr (.str "Session expired. Please login again.".toList) 401 none)) ∧
    handleResponse ⟨200, some "application/json".toList, "true".toList⟩ =
      (⟨false, none⟩, .ok ⟨Json.bool true, none, true⟩) :=
  ⟨(C8_handle_response_cases ⟨401, none, []⟩).1 rfl,
    (((C8_handle_response_cases ⟨200, some "application/json".toList, "true".toList⟩).2
        (by decide)).2 (Json.bool true) rfl).2 rfl⟩

/-- C9: `withSlash` is idempotent and canonicalizing — its output always
ends in a slash, applying it twice equals applying it once, and a path that
already ends in a slash is returned unchanged, so no endpoint gains a
doubled trailing slash. -/
theorem C9_with_slash_canonical (p : JStr) :
    jsEndsWithSlash (withSlash p) = true ∧
    withSlash (withSlash p) = withSlash p ∧
    (jsEndsWithSlash p = true → withSlash p = p) := by
  refine ⟨withSlash_last p, ?_, fun h => by unfold withSlash; rw [if_pos h]⟩
  conv_lhs => rw [withSlash]
  rw [if_pos (withSlash_last p)]

/-- Witness for C9: a slashless path gains exactly one slash and a slashed
path is untouched. -/
theorem C9_with_slash_witness :
    withSlash "/x".toList = "/x/".toList ∧ withSlash "/x/".toList = "/x/".toList :=
  ⟨by decide, (C9_with_slash_canonical "/x/".toList).2.2 (by decide)⟩

/-- C10 as amended: `logout` always removes the token and clears the user,
making `isLoggedIn` false; `login` always stores the token, and sets the
user (making `isLoggedIn` true) exactly when the token decodes to a truthy
payload — on a failed decode, or a decoded payload that is falsy and so
fails login's `if (decoded)` guard, the user state is simply not written. -/
theorem C10_logout_login_state (s : AuthState) (token : JStr) :
    (authLogout s).storedToken = none ∧ (authLogout s).user = none ∧
    authIsLoggedIn (authLogout s) = false ∧
    (authLogin token s).storedToken = some token ∧
    (∀ d, decodeToken token = some d → truthy d = true →
      (authLogin token s).user = some (mkAuthUser d) ∧
        authIsLoggedIn (authLogin token s) = true) ∧
    (∀ d, decodeToken token = some d → truthy d = false →
      (authLogin token s).user = s.user) ∧
    (decodeToken token = none → (authLogin token s).user = s.user) := by
  cases h : decodeToken token with
  | none => simp [authLogout, authLogin, authIsLoggedIn, h]
  | some d =>
    by_cases ht : truthy d <;>
      simp [authLogout, authLogin, authIsLoggedIn, h, ht]

/-- Counterexample to C10 as stated: the token `x.MA.y` decodes successfully
(`MA` is base64url for the byte string `0`, which parses to the JSON number
0), yet the falsy payload fails login's `if (decoded)` truthiness guard, so
no user is set and `isLoggedIn` stays false although the decode succeeded. -/
theorem C10_falsy_payload_no_login :
    decodeToken "x.MA.y".toList = some (Json.num ⟨0, 0⟩) ∧
    (authLogin "x.MA.y".toList ⟨none, none⟩).storedToken = some "x.MA.y".toList ∧
    (authLogin "x.MA.y".toList ⟨none, none⟩).user = none ∧
    authIsLoggedIn (authLogin "x.MA.y".toList ⟨none, none⟩) = false :=
  ⟨rfl, rfl, rfl, rfl⟩

/-- Witness for C10: logging in with a token whose payload is the empty
object (base64url `e30`, truthy like every object) authenticates a fresh
state. -/
theorem C10_logout_login_witness :
    authIsLoggedIn (authLogin "a.e30.b".toList ⟨none, none⟩) = true :=
  ((C10_logout_login_state ⟨none, none⟩ "a.e30.b".toList).2.2.2.2.1 (Json.obj []) rfl rfl).2

end Coco
